import Mathlib

/-!
Verification of the MASQ Node routing core and auxiliary components.

The development shallowly embeds four Rust source files:
  * node/src/hopper/hopper.rs (the orchestrator actor),
  * node/src/daemon/launcher_windows.rs (the Windows process launcher),
  * masq/src/communications/client_listener_thread.rs (the websocket
    client listener thread),
and, where the routing/consuming service implementations are not part of
the available sources, models their behaviour from the specification
(definitions so marked in their doc comments).

Actor handlers are embedded as pure state transformers returning
an Except value: a normal return is Except.ok carrying the successor
state together with the list of side effects the handler performed, and
a Rust panic (an expect on a None option) is Except.error carrying the
panic message.
-/

namespace HopperModel

/-- Handle to an actix Recipient endpoint; the orchestrator only stores and
forwards these, so they are modelled as opaque identifiers. -/
abbrev Recipient := Nat

/-- Handle to the static CryptDE trait object held by the Hopper; opaque to
the orchestrator. -/
abbrev CryptDEHandle := Nat

/-- Handle to a ProxyClientSubs bundle, passed whole into RoutingService. -/
abbrev ProxyClientSubs := Nat

/-- Handle to a ProxyServerSubs bundle, passed whole into RoutingService. -/
abbrev ProxyServerSubs := Nat

/-- Handle to a NeighborhoodSubs bundle, passed whole into RoutingService. -/
abbrev NeighborhoodSubs := Nat

/-- The fields of DispatcherSubs that hopper.rs reads. -/
structure DispatcherSubs where
  from_dispatcher_client : Recipient
deriving DecidableEq

/-- The fields of the hopper's own HopperSubs that hopper.rs reads. -/
structure HopperSubsView where
  from_dispatcher : Recipient
deriving DecidableEq

/-- The fields of AccountantSubs that hopper.rs reads. -/
structure AccountantSubs where
  report_routing_service_provided : Recipient
deriving DecidableEq

/-- The collaborator handles carried by a BindMessage (peer_actors), limited
to the fields hopper.rs accesses. -/
structure PeerActors where
  dispatcher : DispatcherSubs
  hopper : HopperSubsView
  proxy_client : ProxyClientSubs
  proxy_server : ProxyServerSubs
  neighborhood : NeighborhoodSubs
  accountant : AccountantSubs
deriving DecidableEq

/-- BindMessage from sub_lib/peer_actors.rs, as consumed by hopper.rs. -/
structure BindMessage where
  peer_actors : PeerActors
deriving DecidableEq

/-- Modelled from the spec: the pre-send package (route, payload,
destination key) is declared in sub_lib/hopper.rs, which is not among the
available sources; the orchestrator treats it as an opaque value, so it is
modelled as an abstract identifier. -/
structure IncipientCoresPackage where
  contents : Nat
deriving DecidableEq

/-- Modelled from the spec: the transport-level inbound envelope is declared
in sub_lib/dispatcher.rs, which is not among the available sources; the
orchestrator treats it as an opaque value, so it is modelled as an abstract
identifier. -/
structure InboundClientData where
  contents : Nat
deriving DecidableEq

/-- The state captured by ConsumingService, as the four arguments of the
ConsumingService::new call in hopper.rs (the service implementation itself
is not among the available sources). -/
structure ConsumingService where
  cryptde : CryptDEHandle
  is_bootstrap_node : Bool
  to_dispatcher : Recipient
  to_hopper : Recipient
deriving DecidableEq

/-- The state captured by RoutingService, as the nine arguments of the
RoutingService::new call in hopper.rs (the service implementation itself is
not among the available sources). -/
structure RoutingService where
  cryptde : CryptDEHandle
  is_bootstrap_node : Bool
  proxy_client_subs : ProxyClientSubs
  proxy_server_subs : ProxyServerSubs
  neighborhood_subs : NeighborhoodSubs
  to_dispatcher : Recipient
  to_accountant_routing : Recipient
  per_routing_service : Nat
  per_routing_byte : Nat
deriving DecidableEq

/-- HopperConfig from sub_lib/hopper.rs, restricted to the fields
Hopper::new reads. -/
structure HopperConfig where
  cryptde : CryptDEHandle
  is_bootstrap_node : Bool
  per_routing_service : Nat
  per_routing_byte : Nat
deriving DecidableEq

/-- The Hopper actor state (struct Hopper in hopper.rs). -/
structure Hopper where
  cryptde : CryptDEHandle
  is_bootstrap_node : Bool
  consuming_service : Option ConsumingService
  routing_service : Option RoutingService
  per_routing_service : Nat
  per_routing_byte : Nat
deriving DecidableEq

/-- Hopper::new in hopper.rs: both services start out as None. -/
def Hopper.new (config : HopperConfig) : Hopper :=
  { cryptde := config.cryptde
    is_bootstrap_node := config.is_bootstrap_node
    consuming_service := none
    routing_service := none
    per_routing_service := config.per_routing_service
    per_routing_byte := config.per_routing_byte }

/-- Modelled from the spec: the process-wide mailbox-capacity constant
NODE_MAILBOX_CAPACITY is declared in sub_lib/utils.rs, which is not among
the available sources; only its identity matters to the orchestrator, so an
arbitrary fixed value stands in for it. -/
def NODE_MAILBOX_CAPACITY : Nat := 0

/-- The observable side effects a Hopper handler can perform. -/
inductive HopperEffect
  | setMailboxCapacity (capacity : Nat)
  | consume (msg : IncipientCoresPackage)
  | route (msg : InboundClientData)
deriving DecidableEq

/-- The result of one handler invocation: panic message, or successor state
with the effects performed (the actix Result type of all three handlers is
the unit type, so no reply value exists). -/
abbrev HandlerResult := Except String (Hopper × List HopperEffect)

/-- Handler of BindMessage for Hopper in hopper.rs: set the mailbox
capacity, then construct both services from the message's collaborator
handles. The source performs no check of the current state. -/
def handleBindMessage (h : Hopper) (msg : BindMessage) : HandlerResult :=
  .ok
    ({ h with
        consuming_service := some
          { cryptde := h.cryptde
            is_bootstrap_node := h.is_bootstrap_node
            to_dispatcher := msg.peer_actors.dispatcher.from_dispatcher_client
            to_hopper := msg.peer_actors.hopper.from_dispatcher }
        routing_service := some
          { cryptde := h.cryptde
            is_bootstrap_node := h.is_bootstrap_node
            proxy_client_subs := msg.peer_actors.proxy_client
            proxy_server_subs := msg.peer_actors.proxy_server
            neighborhood_subs := msg.peer_actors.neighborhood
            to_dispatcher := msg.peer_actors.dispatcher.from_dispatcher_client
            to_accountant_routing := msg.peer_actors.accountant.report_routing_service_provided
            per_routing_service := h.per_routing_service
            per_routing_byte := h.per_routing_byte } },
      [HopperEffect.setMailboxCapacity NODE_MAILBOX_CAPACITY])

/-- Handler of IncipientCoresPackage for Hopper in hopper.rs: expect the
consuming service (panic when unbound), then pass the message to it. -/
def handleIncipientCoresPackage (h : Hopper) (msg : IncipientCoresPackage) : HandlerResult :=
  match h.consuming_service with
  | none => .error "Hopper unbound: no ConsumingService"
  | some _ => .ok (h, [HopperEffect.consume msg])

/-- Handler of InboundClientData for Hopper in hopper.rs: expect the
routing service (panic when unbound), then pass the message to it. -/
def handleInboundClientData (h : Hopper) (msg : InboundClientData) : HandlerResult :=
  match h.routing_service with
  | none => .error "Hopper unbound: no RoutingService"
  | some _ => .ok (h, [HopperEffect.route msg])

/-- Bound state: both services constructed. -/
def Hopper.isBound (h : Hopper) : Bool :=
  h.consuming_service.isSome && h.routing_service.isSome

/-- A concrete BindMessage used by witnesses and counterexamples. -/
def exampleBind : BindMessage :=
  { peer_actors :=
    { dispatcher := { from_dispatcher_client := 1 }
      hopper := { from_dispatcher := 2 }
      proxy_client := 3
      proxy_server := 4
      neighborhood := 5
      accountant := { report_routing_service_provided := 6 } } }

/-- A concrete HopperConfig used by witnesses and counterexamples. -/
def exampleConfig : HopperConfig :=
  { cryptde := 0, is_bootstrap_node := false
    per_routing_service := 100, per_routing_byte := 200 }

/-- A concrete Hopper in the Bound state: the state a fresh Hopper reaches
after handling exampleBind. -/
def exampleBoundHopper : Hopper :=
  { cryptde := 0
    is_bootstrap_node := false
    consuming_service := some
      { cryptde := 0, is_bootstrap_node := false, to_dispatcher := 1, to_hopper := 2 }
    routing_service := some
      { cryptde := 0, is_bootstrap_node := false
        proxy_client_subs := 3, proxy_server_subs := 4, neighborhood_subs := 5
        to_dispatcher := 1, to_accountant_routing := 6
        per_routing_service := 100, per_routing_byte := 200 }
    per_routing_service := 100
    per_routing_byte := 200 }

end HopperModel

namespace HopperModel

/-- C1: in the Unbound state (no service constructed), handling an
IncipientCoresPackage or an InboundClientData panics with the respective
expect message; it is never silently dropped or processed. -/
theorem c1_unbound_package_handling_panics (h : Hopper)
    (msgI : IncipientCoresPackage) (msgD : InboundClientData)
    (hc : h.consuming_service = none) (hr : h.routing_service = none) :
    handleIncipientCoresPackage h msgI = .error "Hopper unbound: no ConsumingService" ∧
    handleInboundClientData h msgD = .error "Hopper unbound: no RoutingService" := by
  constructor
  · simp [handleIncipientCoresPackage, hc]
  · simp [handleInboundClientData, hr]

/-- Witness for C1 at a freshly constructed Hopper and concrete messages. -/
theorem c1_unbound_package_handling_panics_witness :
    handleIncipientCoresPackage (Hopper.new exampleConfig) ⟨7⟩ =
      .error "Hopper unbound: no ConsumingService" ∧
    handleInboundClientData (Hopper.new exampleConfig) ⟨8⟩ =
      .error "Hopper unbound: no RoutingService" :=
  c1_unbound_package_handling_panics (Hopper.new exampleConfig) ⟨7⟩ ⟨8⟩ rfl rfl

/-- Counterexample to C2 as stated: at a concrete Hopper already in the
Bound state, handling a further BindMessage does not abort; it succeeds and
reconstructs both services from the new message's handles. -/
theorem c2_double_bind_counterexample :
    exampleBoundHopper.isBound = true ∧
    handleBindMessage exampleBoundHopper exampleBind =
      .ok (exampleBoundHopper,
        [HopperEffect.setMailboxCapacity NODE_MAILBOX_CAPACITY]) := by
  constructor
  · rfl
  · rfl

/-- C2 amended: handling a BindMessage in the Bound state is not fatal; the
handler never panics and instead rebinds, reconstructing both services from
the new message's collaborator handles and resetting the mailbox
capacity. -/
theorem c2_double_bind_rebinds (h : Hopper) (msg : BindMessage)
    (hb : h.isBound = true) :
    handleBindMessage h msg =
      .ok
        ({ h with
            consuming_service := some
              { cryptde := h.cryptde
                is_bootstrap_node := h.is_bootstrap_node
                to_dispatcher := msg.peer_actors.dispatcher.from_dispatcher_client
                to_hopper := msg.peer_actors.hopper.from_dispatcher }
            routing_service := some
              { cryptde := h.cryptde
                is_bootstrap_node := h.is_bootstrap_node
                proxy_client_subs := msg.peer_actors.proxy_client
                proxy_server_subs := msg.peer_actors.proxy_server
                neighborhood_subs := msg.peer_actors.neighborhood
                to_dispatcher := msg.peer_actors.dispatcher.from_dispatcher_client
                to_accountant_routing :=
                  msg.peer_actors.accountant.report_routing_service_provided
                per_routing_service := h.per_routing_service
                per_routing_byte := h.per_routing_byte } },
          [HopperEffect.setMailboxCapacity NODE_MAILBOX_CAPACITY]) := rfl

/-- Witness for the amended C2 at a concrete Bound Hopper. -/
theorem c2_double_bind_rebinds_witness :
    exampleBoundHopper.isBound = true ∧
    handleBindMessage exampleBoundHopper exampleBind =
      .ok
        ({ exampleBoundHopper with
            consuming_service := some
              { cryptde := exampleBoundHopper.cryptde
                is_bootstrap_node := exampleBoundHopper.is_bootstrap_node
                to_dispatcher := exampleBind.peer_actors.dispatcher.from_dispatcher_client
                to_hopper := exampleBind.peer_actors.hopper.from_dispatcher }
            routing_service := some
              { cryptde := exampleBoundHopper.cryptde
                is_bootstrap_node := exampleBoundHopper.is_bootstrap_node
                proxy_client_subs := exampleBind.peer_actors.proxy_client
                proxy_server_subs := exampleBind.peer_actors.proxy_server
                neighborhood_subs := exampleBind.peer_actors.neighborhood
                to_dispatcher := exampleBind.peer_actors.dispatcher.from_dispatcher_client
                to_accountant_routing :=
                  exampleBind.peer_actors.accountant.report_routing_service_provided
                per_routing_service := exampleBoundHopper.per_routing_service
                per_routing_byte := exampleBoundHopper.per_routing_byte } },
          [HopperEffect.setMailboxCapacity NODE_MAILBOX_CAPACITY]) :=
  ⟨rfl, c2_double_bind_rebinds exampleBoundHopper exampleBind rfl⟩

/-- C5: handling a BindMessage on a freshly constructed Hopper succeeds and
constructs both services from the message's collaborator handles (transport
recipient, local component addresses, accounting recipient) together with
the configuration carried since construction, leaving the Hopper Bound. -/
theorem c5_bind_constructs_both_services (config : HopperConfig) (msg : BindMessage) :
    handleBindMessage (Hopper.new config) msg =
      .ok
        ({ Hopper.new config with
            consuming_service := some
              { cryptde := config.cryptde
                is_bootstrap_node := config.is_bootstrap_node
                to_dispatcher := msg.peer_actors.dispatcher.from_dispatcher_client
                to_hopper := msg.peer_actors.hopper.from_dispatcher }
            routing_service := some
              { cryptde := config.cryptde
                is_bootstrap_node := config.is_bootstrap_node
                proxy_client_subs := msg.peer_actors.proxy_client
                proxy_server_subs := msg.peer_actors.proxy_server
                neighborhood_subs := msg.peer_actors.neighborhood
                to_dispatcher := msg.peer_actors.dispatcher.from_dispatcher_client
                to_accountant_routing :=
                  msg.peer_actors.accountant.report_routing_service_provided
                per_routing_service := config.per_routing_service
                per_routing_byte := config.per_routing_byte } },
          [HopperEffect.setMailboxCapacity NODE_MAILBOX_CAPACITY]) ∧
    ∀ h' effects, handleBindMessage (Hopper.new config) msg = .ok (h', effects) →
      h'.isBound = true := by
  constructor
  · rfl
  · intro h' effects heq
    cases heq
    rfl

/-- Witness for C5 at the concrete configuration and Bind message. -/
theorem c5_bind_constructs_both_services_witness :
    handleBindMessage (Hopper.new exampleConfig) exampleBind =
      .ok (exampleBoundHopper, [HopperEffect.setMailboxCapacity NODE_MAILBOX_CAPACITY]) ∧
    exampleBoundHopper.isBound = true :=
  ⟨rfl, (c5_bind_constructs_both_services exampleConfig exampleBind).2 exampleBoundHopper
      [HopperEffect.setMailboxCapacity NODE_MAILBOX_CAPACITY] rfl⟩

/-- C6: the state machine is Unbound then Bound and Bound is terminal: a
fresh Hopper has neither service, and every handler that returns normally
from a Bound state leaves the Hopper Bound. -/
theorem c6_bound_is_terminal :
    (∀ config, (Hopper.new config).consuming_service = none ∧
      (Hopper.new config).routing_service = none) ∧
    (∀ (h : Hopper) (msg : BindMessage) h' effects, h.isBound = true →
      handleBindMessage h msg = .ok (h', effects) → h'.isBound = true) ∧
    (∀ (h : Hopper) (msg : IncipientCoresPackage) h' effects, h.isBound = true →
      handleIncipientCoresPackage h msg = .ok (h', effects) → h'.isBound = true) ∧
    (∀ (h : Hopper) (msg : InboundClientData) h' effects, h.isBound = true →
      handleInboundClientData h msg = .ok (h', effects) → h'.isBound = true) := by
  refine ⟨fun config => ⟨rfl, rfl⟩, ?_, ?_, ?_⟩
  · intro h msg h' effects _ heq
    cases heq
    rfl
  · intro h msg h' effects hb heq
    unfold handleIncipientCoresPackage at heq
    cases hcs : h.consuming_service with
    | none => rw [hcs] at heq; cases heq
    | some cs => rw [hcs] at heq; cases heq; exact hb
  · intro h msg h' effects hb heq
    unfold handleInboundClientData at heq
    cases hrs : h.routing_service with
    | none => rw [hrs] at heq; cases heq
    | some rs => rw [hrs] at heq; cases heq; exact hb

/-- Witness for C6 at concrete states: the fresh Hopper, and each handler
run on the concrete Bound Hopper. -/
theorem c6_bound_is_terminal_witness :
    exampleBoundHopper.isBound = true ∧
    exampleBoundHopper.isBound = true ∧
    exampleBoundHopper.isBound = true := by
  refine ⟨?_, ?_, ?_⟩
  · exact c6_bound_is_terminal.2.1 exampleBoundHopper exampleBind exampleBoundHopper
      [HopperEffect.setMailboxCapacity NODE_MAILBOX_CAPACITY] rfl rfl
  · exact c6_bound_is_terminal.2.2.1 exampleBoundHopper ⟨7⟩ exampleBoundHopper
      [HopperEffect.consume ⟨7⟩] rfl rfl
  · exact c6_bound_is_terminal.2.2.2 exampleBoundHopper ⟨8⟩ exampleBoundHopper
      [HopperEffect.route ⟨8⟩] rfl rfl

/-- C7: in the Bound state dispatch is purely by message kind: an
IncipientCoresPackage goes to the consuming service and an
InboundClientData to the routing service, the state is unchanged, and the
handlers return no reply value beyond the unit result. -/
theorem c7_bound_dispatch_by_kind (h : Hopper)
    (msgI : IncipientCoresPackage) (msgD : InboundClientData)
    (hb : h.isBound = true) :
    handleIncipientCoresPackage h msgI = .ok (h, [HopperEffect.consume msgI]) ∧
    handleInboundClientData h msgD = .ok (h, [HopperEffect.route msgD]) := by
  unfold Hopper.isBound at hb
  rw [Bool.and_eq_true] at hb
  obtain ⟨hc, hr⟩ := hb
  constructor
  · unfold handleIncipientCoresPackage
    cases hcs : h.consuming_service with
    | none => rw [hcs] at hc; cases hc
    | some cs => rfl
  · unfold handleInboundClientData
    cases hrs : h.routing_service with
    | none => rw [hrs] at hr; cases hr
    | some rs => rfl

/-- Witness for C7 at the concrete Bound Hopper. -/
theorem c7_bound_dispatch_by_kind_witness :
    handleIncipientCoresPackage exampleBoundHopper ⟨7⟩ =
      .ok (exampleBoundHopper, [HopperEffect.consume ⟨7⟩]) ∧
    handleInboundClientData exampleBoundHopper ⟨8⟩ =
      .ok (exampleBoundHopper, [HopperEffect.route ⟨8⟩]) :=
  c7_bound_dispatch_by_kind exampleBoundHopper ⟨7⟩ ⟨8⟩ rfl

/-- C8: handling a BindMessage sets the mailbox capacity to exactly the
process-wide constant NODE_MAILBOX_CAPACITY, as its first effect. -/
theorem c8_bind_sets_mailbox_capacity (h : Hopper) (msg : BindMessage) :
    ∃ h', handleBindMessage h msg =
      .ok (h', [HopperEffect.setMailboxCapacity NODE_MAILBOX_CAPACITY]) :=
  ⟨_, rfl⟩

end HopperModel

namespace OnionModel

/-- Modelled from the spec: opaque byte identifier of a node's asymmetric
public key (the key data model lives in sub_lib/cryptde.rs, which is not
among the available sources). -/
abbrev PublicKey := List Nat

/-- Modelled from the spec: the enumerated tag identifying which local
subsystem receives a delivered payload (sub_lib/dispatcher.rs is not among
the available sources). -/
inductive Component
  | dispatcher
  | proxyClient
  | proxyServer
  | neighborhood
  | accountant
deriving DecidableEq

/-- Modelled from the spec: a fully layered onion ciphertext as produced by
the outbound encryption service (consuming_service.rs is not among the
available sources). Each layer is encrypted for one hop's public key
(recorded as the target field); only that hop can open it. The innermost
layer holds the terminal Component and the payload bytes; every outer layer
holds the next hop's key and the remaining still-encrypted blob. -/
inductive LayeredCiphertext
  | encFinal (target : PublicKey) (component : Component) (payload : List Nat)
  | encRelay (target : PublicKey) (next : PublicKey) (inner : LayeredCiphertext)
deriving DecidableEq

/-- Modelled from the spec: the wire length of a layered ciphertext, in
bytes; the fee formula multiplies the per-byte rate by the length of the
forwarded ciphertext. -/
def LayeredCiphertext.size : LayeredCiphertext → Nat
  | .encFinal _ _ payload => payload.length + 2
  | .encRelay _ next inner => next.length + inner.size + 2

/-- Modelled from the spec: the outbound layering algorithm, processing the
route hops from the destination backward. The innermost segment pairs the
terminal Component with the payload and is encrypted for the last hop's
key; each preceding hop's segment pairs the next hop's key with the
inner blob and is encrypted for that hop's key. -/
def wrapRoute (hop : PublicKey) (rest : List PublicKey)
    (component : Component) (payload : List Nat) : LayeredCiphertext :=
  match rest with
  | [] => .encFinal hop component payload
  | hop2 :: rest2 => .encRelay hop hop2 (wrapRoute hop2 rest2 component payload)

/-- Modelled from the spec: the outbound encryption service turns a route
with at least one hop, a terminal Component and payload bytes into one
fully layered wire package; a route with no hops violates the data-model
invariant and produces nothing. -/
def consumeOutbound (hops : List PublicKey) (component : Component)
    (payload : List Nat) : Option LayeredCiphertext :=
  match hops with
  | [] => none
  | hop :: rest => some (wrapRoute hop rest component payload)

/-- Modelled from the spec: the observable outcome of one inbound routing
step (routing_service.rs is not among the available sources): local
delivery of the payload to a Component, forwarding of the reduced blob to
the next hop together with the single reported relay cost, or a silent
drop on a layer not addressed to this node. -/
inductive RoutingOutcome
  | deliver (component : Component) (payload : List Nat)
  | forward (next : PublicKey) (blob : LayeredCiphertext) (reportedCost : Nat)
  | decryptionError
deriving DecidableEq

/-- Modelled from the spec: one run of the inbound routing service at the
node owning selfKey. The outer layer decrypts only when it is addressed to
selfKey; a final layer is delivered locally with no fee, and a relay layer
is forwarded to the next hop with exactly one cost report of
flat plus perByte times the forwarded ciphertext length. -/
def routeInbound (selfKey : PublicKey) (flat perByte : Nat) :
    LayeredCiphertext → RoutingOutcome
  | .encFinal target component payload =>
      if target = selfKey then .deliver component payload else .decryptionError
  | .encRelay target next inner =>
      if target = selfKey then .forward next inner (flat + perByte * inner.size)
      else .decryptionError

/-- The relay costs reported to the accounting collaborator by one routing
outcome. -/
def RoutingOutcome.reports : RoutingOutcome → List Nat
  | .forward _ _ cost => [cost]
  | _ => []

/-- Modelled from the spec: running the inbound routing service once per
hop, in hop order. Every non-last hop must produce a forward whose next-hop
key is the following hop; the last hop's outcome is the result. -/
def runInboundAtHops (flat perByte : Nat) :
    List PublicKey → LayeredCiphertext → Option RoutingOutcome
  | [], _ => none
  | [hop], ct => some (routeInbound hop flat perByte ct)
  | hop :: hop2 :: rest, ct =>
      match routeInbound hop flat perByte ct with
      | .forward next blob _ =>
          if next = hop2 then runInboundAtHops flat perByte (hop2 :: rest) blob
          else none
      | _ => none

/-- Round trip over the hop list in hop order: the wrapped package, routed
at each hop in turn, is delivered at the last hop with the original
component and payload. -/
theorem runInboundAtHops_wrapRoute (flat perByte : Nat) (component : Component)
    (payload : List Nat) (hop : PublicKey) (rest : List PublicKey) :
    runInboundAtHops flat perByte (hop :: rest)
      (wrapRoute hop rest component payload) =
      some (.deliver component payload) := by
  induction rest generalizing hop with
  | nil => simp [runInboundAtHops, wrapRoute, routeInbound]
  | cons hop2 rest2 ih =>
    simp [runInboundAtHops, wrapRoute, routeInbound, ih hop2]

end OnionModel

namespace OnionModel

/-- C3: for every route with at least one hop and every payload, one run of
the outbound encryption service followed by one inbound routing run per
hop, in hop order, delivers at the last run exactly the original payload
bytes and the original terminal Component tag. -/
theorem c3_onion_round_trip (flat perByte : Nat) (component : Component)
    (payload : List Nat) (hop : PublicKey) (rest : List PublicKey) :
    ∃ ct, consumeOutbound (hop :: rest) component payload = some ct ∧
      runInboundAtHops flat perByte (hop :: rest) ct =
        some (.deliver component payload) :=
  ⟨wrapRoute hop rest component payload, rfl,
    runInboundAtHops_wrapRoute flat perByte component payload hop rest⟩

/-- C4: an inbound package whose remaining route after stripping one layer
is non-empty produces exactly one accounting report equal to
flat plus perByte times the forwarded ciphertext length; final-hop local
delivery produces none; and the fee parameters the Bind handler installs in
the routing service are exactly the per_routing_service and
per_routing_byte values from the Hopper configuration. -/
theorem c4_relay_fee_reporting (selfKey : PublicKey) (flat perByte : Nat) :
    (∀ (next : PublicKey) (inner : LayeredCiphertext),
      routeInbound selfKey flat perByte (.encRelay selfKey next inner) =
        .forward next inner (flat + perByte * inner.size) ∧
      (routeInbound selfKey flat perByte (.encRelay selfKey next inner)).reports =
        [flat + perByte * inner.size]) ∧
    (∀ (component : Component) (payload : List Nat),
      (routeInbound selfKey flat perByte (.encFinal selfKey component payload)).reports =
        []) ∧
    (∀ (config : HopperModel.HopperConfig) (msg : HopperModel.BindMessage)
        (h' : HopperModel.Hopper) (effects : List HopperModel.HopperEffect)
        (rs : HopperModel.RoutingService),
      HopperModel.handleBindMessage (HopperModel.Hopper.new config) msg =
        .ok (h', effects) →
      h'.routing_service = some rs →
      rs.per_routing_service = config.per_routing_service ∧
      rs.per_routing_byte = config.per_routing_byte) := by
  refine ⟨?_, ?_, ?_⟩
  · intro next inner
    constructor
    · simp [routeInbound]
    · simp [routeInbound, RoutingOutcome.reports]
  · intro component payload
    simp [routeInbound, RoutingOutcome.reports]
  · intro config msg h' effects rs heq hrs
    cases heq
    simp only [HopperModel.Hopper.new] at hrs
    cases hrs
    exact ⟨rfl, rfl⟩

/-- Witness for C4 at concrete keys, fees, ciphertexts and configuration. -/
theorem c4_relay_fee_reporting_witness :
    (routeInbound [1] 100 200 (.encRelay [1] [2] (.encFinal [2] .neighborhood [9, 9]))) =
      .forward [2] (.encFinal [2] .neighborhood [9, 9]) (100 + 200 * 4) ∧
    (routeInbound [1] 100 200
        (.encRelay [1] [2] (.encFinal [2] .neighborhood [9, 9]))).reports =
      [100 + 200 * 4] ∧
    (routeInbound [1] 100 200 (.encFinal [1] .neighborhood [9, 9])).reports = [] := by
  have h := c4_relay_fee_reporting [1] 100 200
  obtain ⟨h1, h2⟩ := h.1 [2] (.encFinal [2] .neighborhood [9, 9])
  exact ⟨h1, h2, h.2.1 .neighborhood [9, 9]⟩

end OnionModel

namespace LauncherModel

/-- Lexicographic comparison of byte sequences, as Rust's Ord for String
compares the UTF-8 bytes of the two strings. -/
def bytesLe : List Nat → List Nat → Bool
  | [], _ => true
  | _ :: _, [] => false
  | x :: xs, y :: ys => if x < y then true else if x = y then bytesLe xs ys else false

/-- String comparison on code points; UTF-8 byte order coincides with code
point order, so this is Rust's String ordering. -/
def strLe (a b : String) : Bool :=
  bytesLe (a.toList.map Char.toNat) (b.toList.map Char.toNat)

/-- The key order used by sorted_by_key in LauncherReal::launch: compare
parameter pairs by their name component. -/
def paramLe (a b : String × String) : Prop := strLe a.1 b.1 = true

instance : DecidableRel paramLe := fun a b => by
  unfold paramLe
  infer_instance

theorem bytesLe_total (xs ys : List Nat) : bytesLe xs ys = true ∨ bytesLe ys xs = true := by
  induction xs generalizing ys with
  | nil => simp [bytesLe]
  | cons x xs ih =>
    cases ys with
    | nil => simp [bytesLe]
    | cons y ys =>
      simp only [bytesLe]
      rcases Nat.lt_trichotomy x y with h | h | h
      · simp [h]
      · subst h
        simp [ih ys]
      · simp [Nat.lt_asymm h, h, Nat.ne_of_gt h, (Nat.ne_of_gt h).symm]

theorem bytesLe_trans :
    ∀ xs ys zs : List Nat, bytesLe xs ys = true → bytesLe ys zs = true →
      bytesLe xs zs = true
  | [], _, _, _, _ => by simp [bytesLe]
  | x :: xs, [], _, h, _ => by simp [bytesLe] at h
  | x :: xs, y :: ys, [], _, h2 => by simp [bytesLe] at h2
  | x :: xs, y :: ys, z :: zs, h1, h2 => by
    simp only [bytesLe] at h1 h2 ⊢
    by_cases hxy : x < y
    · by_cases hyz : y < z
      · simp [Nat.lt_trans hxy hyz]
      · simp [hyz] at h2
        obtain ⟨hyz2, _⟩ := h2
        subst hyz2
        simp [hxy]
    · simp [hxy] at h1
      obtain ⟨hxy2, hrec1⟩ := h1
      subst hxy2
      by_cases hyz : x < z
      · simp [hyz]
      · simp [hyz] at h2 ⊢
        obtain ⟨hyz2, hrec2⟩ := h2
        exact ⟨hyz2, bytesLe_trans xs ys zs hrec1 hrec2⟩

instance : IsTotal (String × String) paramLe :=
  ⟨fun a b => bytesLe_total _ _⟩

instance : IsTrans (String × String) paramLe :=
  ⟨fun _ _ _ h1 h2 => bytesLe_trans _ _ _ h1 h2⟩

/-- HashMap::insert on the parameter map: any existing entry under the key
is replaced by the new value. The map is modelled as an association list
with pairwise distinct keys; its order is irrelevant because launch sorts
the entries before use. -/
def insertParam (params : List (String × String)) (key value : String) :
    List (String × String) :=
  params.filter (fun p => p.1 != key) ++ [(key, value)]

/-- The sorted_by_key step of LauncherReal::launch: a stable sort of the
parameter pairs by name (itertools sorted_by_key is stable, as is
insertion sort, so the results agree). -/
def sortParams (ps : List (String × String)) : List (String × String) :=
  List.insertionSort paramLe ps

/-- The flat_map step of LauncherReal::launch: each pair (n, v) becomes the
two adjacent strings --n and v. -/
def flattenParams (ps : List (String × String)) : List String :=
  ps.flatMap (fun p => ["--" ++ p.1, p.2])

/-- LaunchSuccess as returned by the daemon launcher. -/
structure LaunchSuccess where
  new_process_id : Nat
  redirect_ui_port : Nat
deriving DecidableEq

/-- LauncherReal::launch from launcher_windows.rs: overwrite the ui-port
parameter with the freshly found free port, sort the parameters by name,
flatten them to alternating --name, value strings, and run the execer once
on them. The execer is modelled by its scripted result, and the second
component of the return value is the log of exec invocations (the source
makes exactly one). find_free_port is modelled by the freePort argument. -/
def launch (execResult : Except String Nat) (freePort : Nat)
    (params : List (String × String)) :
    Except String (Option LaunchSuccess) × List (List String) :=
  let params2 := insertParam params "ui-port" (toString freePort)
  let params_vec := flattenParams (sortParams params2)
  match execResult with
  | .ok new_process_id =>
      (.ok (some { new_process_id := new_process_id, redirect_ui_port := freePort }),
        [params_vec])
  | .error s => (.error s, [params_vec])

end LauncherModel

namespace LauncherModel

/-- C9: launch overwrites the ui-port entry with the fresh free port (the
caller's value is gone and the fresh value is the unique ui-port entry),
invokes the execer exactly once, on the flattening into alternating --name,
value strings of a name-sorted permutation of the updated map, and returns
the success record with the execer's process id and the fresh port exactly
when the execer succeeds, otherwise the execer's error string unchanged. -/
theorem c9_launch_behaviour (execResult : Except String Nat) (freePort : Nat)
    (params : List (String × String)) :
    (∃ sortedParams,
      (launch execResult freePort params).2 = [flattenParams sortedParams] ∧
      sortedParams.Pairwise paramLe ∧
      sortedParams.Perm (insertParam params "ui-port" (toString freePort))) ∧
    ("ui-port", toString freePort) ∈ insertParam params "ui-port" (toString freePort) ∧
    (∀ v, ("ui-port", v) ∈ insertParam params "ui-port" (toString freePort) →
      v = toString freePort) ∧
    (∀ pid, execResult = .ok pid →
      (launch execResult freePort params).1 =
        .ok (some { new_process_id := pid, redirect_ui_port := freePort })) ∧
    (∀ s, execResult = .error s → (launch execResult freePort params).1 = .error s) := by
  refine ⟨⟨sortParams (insertParam params "ui-port" (toString freePort)), ?_, ?_, ?_⟩,
    ?_, ?_, ?_, ?_⟩
  · cases execResult <;> rfl
  · exact List.sorted_insertionSort paramLe _
  · exact List.perm_insertionSort paramLe _
  · simp [insertParam]
  · intro v hv
    simp only [insertParam, List.mem_append, List.mem_filter, List.mem_singleton] at hv
    rcases hv with ⟨_, hne⟩ | heq
    · simp at hne
    · exact (Prod.mk.injEq _ _ _ _).mp heq |>.2
  · intro pid heq
    subst heq
    rfl
  · intro s heq
    subst heq
    rfl

/-- Witness for C9 mirroring the repository's own launcher test: parameters
name=value and ui-port=5333, fresh port 12345, execer scripted to succeed
with pid 1234 or fail with the string Booga. -/
theorem c9_launch_behaviour_witness :
    ("ui-port", toString (12345 : Nat)) ∈
      insertParam [("name", "value"), ("ui-port", "5333")] "ui-port"
        (toString (12345 : Nat)) ∧
    (launch (.ok 1234) 12345 [("name", "value"), ("ui-port", "5333")]).1 =
      .ok (some { new_process_id := 1234, redirect_ui_port := 12345 }) ∧
    (launch (.error "Booga!") 12345 [("name", "value"), ("ui-port", "5333")]).1 =
      .error "Booga!" ∧
    (launch (.ok 1234) 12345 [("name", "value"), ("ui-port", "5333")]).2 =
      [["--name", "value", "--ui-port", toString (12345 : Nat)]] := by
  refine ⟨?_, ?_, ?_, ?_⟩
  · exact (c9_launch_behaviour (.ok 1234) 12345 [("name", "value"), ("ui-port", "5333")]).2.1
  · exact (c9_launch_behaviour (.ok 1234) 12345
      [("name", "value"), ("ui-port", "5333")]).2.2.2.1 1234 rfl
  · exact (c9_launch_behaviour (.error "Booga!") 12345
      [("name", "value"), ("ui-port", "5333")]).2.2.2.2 "Booga!" rfl
  · rfl

end LauncherModel

namespace ListenerModel

/-- Modelled from the spec: the MessageBody type lives in masq_lib, which is
not among the available sources; the listener thread treats it opaquely, so
it is an abstract identifier. -/
abbrev MessageBody := Nat

/-- ClientListenerError from client_listener_thread.rs. -/
inductive ClientListenerError
  | closed
  | broken
  | unexpectedPacket
deriving DecidableEq

/-- ClientListenerError::is_fatal from client_listener_thread.rs. -/
def ClientListenerError.is_fatal : ClientListenerError → Bool
  | .closed => true
  | .broken => true
  | .unexpectedPacket => false

/-- One outcome of recv_message in the listener loop: a text frame, a close
frame, any other frame kind (binary, ping, pong), or a receive error. -/
inductive RecvOutcome
  | text (s : String)
  | close
  | nonTextNonClose
  | recvError
deriving DecidableEq

/-- The one Result value the loop body sends on the output channel for a
given receive outcome; the unmarshal argument models
UiTrafficConverter::new_unmarshal, which lives in masq_lib outside the
available sources. -/
def sentValue (unmarshal : String → Option MessageBody) :
    RecvOutcome → Except ClientListenerError MessageBody
  | .text s =>
      match unmarshal s with
      | some body => .ok body
      | none => .error .unexpectedPacket
  | .close => .error .closed
  | .nonTextNonClose => .error .unexpectedPacket
  | .recvError => .error .broken

/-- Whether a sent value is a fatal error (an Ok body is never fatal). -/
def outcomeIsFatal (v : Except ClientListenerError MessageBody) : Bool :=
  match v with
  | .error e => e.is_fatal
  | .ok _ => false

/-- The loop of ClientListenerThread::start, run over a stream of receive
outcomes: each iteration sends exactly one Result on the channel, breaking
immediately after a close frame or receive error (ignoring that send's own
success), and otherwise breaking exactly when the send fails. sendOk models
the channel by send index: whether the receiving end still accepts the nth
send. The returned list is the sequence of values offered to the channel. -/
def listenLoop (unmarshal : String → Option MessageBody) (sendOk : Nat → Bool) :
    Nat → List RecvOutcome → List (Except ClientListenerError MessageBody)
  | _, [] => []
  | k, e :: es =>
      sentValue unmarshal e ::
        (match e with
         | .close => []
         | .recvError => []
         | _ => if sendOk k then listenLoop unmarshal sendOk (k + 1) es else [])

end ListenerModel

namespace ListenerModel

/-- C10: each received websocket message causes exactly one Result to be
sent on the output channel, with Ok body for an unmarshalable text frame,
UnexpectedPacket for a text frame that fails to unmarshal or any non-text
non-close frame, Closed for a close frame and Broken for a receive error;
the loop continues past the message exactly when the sent value is not a
fatal error and the channel send succeeded. -/
theorem c10_listener_loop_behaviour (unmarshal : String → Option MessageBody)
    (sendOk : Nat → Bool) (k : Nat) (es : List RecvOutcome) :
    (∀ s body, unmarshal s = some body →
      sentValue unmarshal (.text s) = .ok body) ∧
    (∀ s, unmarshal s = none →
      sentValue unmarshal (.text s) = .error .unexpectedPacket) ∧
    sentValue unmarshal .close = .error .closed ∧
    sentValue unmarshal .nonTextNonClose = .error .unexpectedPacket ∧
    sentValue unmarshal .recvError = .error .broken ∧
    (∀ e, listenLoop unmarshal sendOk k (e :: es) =
      sentValue unmarshal e ::
        (if outcomeIsFatal (sentValue unmarshal e) = true ∨ sendOk k = false then []
         else listenLoop unmarshal sendOk (k + 1) es)) := by
  refine ⟨?_, ?_, rfl, rfl, rfl, ?_⟩
  · intro s body hu
    simp [sentValue, hu]
  · intro s hu
    simp [sentValue, hu]
  · intro e
    cases e with
    | text s =>
      simp only [listenLoop]
      cases hu : unmarshal s with
      | none =>
        simp only [sentValue, hu, outcomeIsFatal, ClientListenerError.is_fatal]
        cases hs : sendOk k <;> simp
      | some body =>
        simp only [sentValue, hu, outcomeIsFatal]
        cases hs : sendOk k <;> simp
    | close =>
      simp [listenLoop, sentValue, outcomeIsFatal, ClientListenerError.is_fatal]
    | nonTextNonClose =>
      simp only [listenLoop, sentValue, outcomeIsFatal, ClientListenerError.is_fatal]
      cases hs : sendOk k <;> simp
    | recvError =>
      simp [listenLoop, sentValue, outcomeIsFatal, ClientListenerError.is_fatal]

/-- A concrete unmarshal function for the C10 witness: only the string good
unmarshals, to body 1. -/
def exampleUnmarshal : String → Option MessageBody :=
  fun s => if s = "good" then some 1 else none

/-- Witness for C10 at the concrete unmarshal function, an always-accepting
channel, and a two-outcome stream. -/
theorem c10_listener_loop_behaviour_witness :
    sentValue exampleUnmarshal (.text "good") = .ok 1 ∧
    sentValue exampleUnmarshal (.text "bad") = .error .unexpectedPacket ∧
    listenLoop exampleUnmarshal (fun _ => true) 0 [.text "good", .close] =
      [.ok 1, .error .closed] := by
  have h := c10_listener_loop_behaviour exampleUnmarshal (fun _ => true) 0 [.close]
  refine ⟨h.1 "good" 1 (by simp [exampleUnmarshal]), ?_, ?_⟩
  · exact h.2.1 "bad" (by simp [exampleUnmarshal])
  · have hstep := h.2.2.2.2.2 (.text "good")
    rw [hstep]
    simp [sentValue, exampleUnmarshal, outcomeIsFatal, listenLoop]

end ListenerModel
